import Mathlib

/-!
Shallow embedding of the benchmark driver in `benchmark.py` (repository
`agents-benchmarks`).  Python floats are modelled as exact rationals;
each request attempt and each sampling tick is modelled by the data it
contributes to the pure aggregation code, so that the statistics,
comparison and persistence logic can be stated and proved in Lean.
-/

namespace Benchmark

/-! ## Basic statistic helpers (Python `statistics` module, `max`, `min`) -/

/-- Python `sorted(data)` on a list of floats (modelled as rationals). -/
def pySorted (xs : List ℚ) : List ℚ := List.insertionSort (· ≤ ·) xs

/-- Python `max(xs)` on a non-empty list; the `0` default for `[]` is never
reached by the guarded call sites in `benchmark.py`. -/
def listMax : List ℚ → ℚ
  | [] => 0
  | x :: xs => xs.foldl max x

/-- Python `min(xs)` on a non-empty list; `0` default as for `listMax`. -/
def listMin : List ℚ → ℚ
  | [] => 0
  | x :: xs => xs.foldl min x

/-- Python `statistics.mean(xs)` = sum divided by length. -/
def pyMean (xs : List ℚ) : ℚ := xs.sum / (xs.length : ℚ)

/-- Python `statistics.median(xs)`: middle element of the sorted list for odd
length, average of the two middle elements for even length. -/
def pyMedian (xs : List ℚ) : ℚ :=
  let s := pySorted xs
  let n := xs.length
  if n % 2 = 1 then s.getD (n / 2) 0
  else (s.getD (n / 2 - 1) 0 + s.getD (n / 2) 0) / 2

/-- The i-th cut point (1 ≤ i ≤ n-1) computed by Python
`statistics.quantiles(data, n=n)` with the default exclusive method:
with `m = ld + 1`, `j, delta = divmod(i*m, n)`, `j` clamped into
`[1, ld-1]`, the cut point is
`(data[j-1]*(n-delta) + data[j]*delta) / n` on the sorted data `s`. -/
def cutPoint (s : List ℚ) (ld n i : Nat) : ℚ :=
  let m := ld + 1
  let j0 := i * m / n
  let delta := i * m % n
  let j := if j0 < 1 then 1 else if j0 > ld - 1 then ld - 1 else j0
  (s.getD (j - 1) 0 * ((n : ℚ) - (delta : ℚ)) + s.getD j 0 * (delta : ℚ)) / (n : ℚ)

/-- Python `statistics.quantiles(data, n=n)` (exclusive method): the list of
the n-1 cut points over the sorted data. -/
def quantilesExc (data : List ℚ) (n : Nat) : List ℚ :=
  (List.range (n - 1)).map fun k => cutPoint (pySorted data) data.length n (k + 1)

/-! ## Request dispatch (`benchmark_service_threaded`) -/

/-- Outcome of one request attempt as seen by the result-processing loop of
`benchmark_service_threaded`: an exception surfaced by `asyncio.gather`, a
`None` returned by `make_request` after catching its own exception, or a
successful response carrying the measured latency and the `task_times`
mapping of the response body (empty when the key is absent). -/
inductive ReqResult where
  | exc : ReqResult
  | failed : ReqResult
  | ok (latency : ℚ) (task_times : List (String × ℚ)) : ReqResult
deriving DecidableEq

/-- Accumulated output of the result-processing loop: successful latencies,
successful response bodies (their `task_times`), and the error count. -/
structure Processed where
  latencies : List ℚ
  responses : List (List (String × ℚ))
  errors : Nat
deriving DecidableEq

/-- The `for result in results` loop of `benchmark_service_threaded`
(lines 141-148): an exception or a `None` counts one error, a success
records its latency and response. -/
def processResults : List ReqResult → Processed
  | [] => ⟨[], [], 0⟩
  | r :: rs =>
    let p := processResults rs
    match r with
    | .exc => ⟨p.latencies, p.responses, p.errors + 1⟩
    | .failed => ⟨p.latencies, p.responses, p.errors + 1⟩
    | .ok l tt => ⟨l :: p.latencies, tt :: p.responses, p.errors⟩

/-- Insertion-ordered grouping step for the `task_times` dictionary:
a new task name is appended at the end, an existing one gets the duration
appended to its list. -/
def addTaskTime (acc : List (String × List ℚ)) (task : String) (d : ℚ) :
    List (String × List ℚ) :=
  match acc with
  | [] => [(task, [d])]
  | (t, ds) :: rest =>
      if t = task then (t, ds ++ [d]) :: rest
      else (t, ds) :: addTaskTime rest task d

/-- The task-time collection loop (lines 153-158): every `(task, duration)`
pair of every successful response is grouped by task name. -/
def collectTaskTimes (responses : List (List (String × ℚ))) :
    List (String × List ℚ) :=
  responses.foldl (fun acc tt => tt.foldl (fun a p => addTaskTime a p.1 p.2) acc) []

/-- Per-task summary computed at lines 160-166. -/
structure TaskStat where
  avg_ms : ℚ
  p50_ms : ℚ
  p95_ms : ℚ
deriving DecidableEq

/-- Latency-statistic field expressions shared by the result dictionary
(lines 176-181): each guards against an empty success list with a `0`
default, and the percentile fields fall back to the maximum below their
sample-count thresholds. -/
def avgField (latencies : List ℚ) : ℚ :=
  if latencies ≠ [] then pyMean latencies else 0

def p50Field (latencies : List ℚ) : ℚ :=
  if latencies ≠ [] then pyMedian latencies else 0

def p95Field (latencies : List ℚ) : ℚ :=
  if latencies.length > 20 then (quantilesExc latencies 20).getD 18 0
  else if latencies ≠ [] then listMax latencies else 0

def p99Field (latencies : List ℚ) : ℚ :=
  if latencies.length > 100 then (quantilesExc latencies 100).getD 98 0
  else if latencies ≠ [] then listMax latencies else 0

def maxField (latencies : List ℚ) : ℚ :=
  if latencies ≠ [] then listMax latencies else 0

def minField (latencies : List ℚ) : ℚ :=
  if latencies ≠ [] then listMin latencies else 0

/-- Summary of one task's durations (lines 162-166). -/
def taskStat (times : List ℚ) : TaskStat :=
  { avg_ms := pyMean times
    p50_ms := pyMedian times
    p95_ms := if times.length > 20 then (quantilesExc times 20).getD 18 0
              else if times ≠ [] then listMax times else 0 }

/-- The result dictionary returned by `benchmark_service_threaded`
(lines 168-184). -/
structure ServiceResult where
  service_url : String
  total_requests : Nat
  successful_requests : Nat
  errors : Nat
  error_rate : ℚ
  total_time_seconds : ℚ
  throughput_rps : ℚ
  avg_latency_ms : ℚ
  p50_latency_ms : ℚ
  p95_latency_ms : ℚ
  p99_latency_ms : ℚ
  max_latency_ms : ℚ
  min_latency_ms : ℚ
  task_statistics : List (String × TaskStat)
  raw_latencies : List ℚ
deriving DecidableEq

/-- Embedding of `benchmark_service_threaded`: `asyncio.gather` yields
exactly one `ReqResult` per dispatched attempt, so the per-attempt network
nondeterminism is abstracted as the list `outcomes` (one entry per request)
and the measured wall-clock duration as `total_time`. -/
def benchmark_service_threaded (url : String) (outcomes : List ReqResult)
    (total_time : ℚ) : ServiceResult :=
  let num_requests := outcomes.length
  let p := processResults outcomes
  let latencies := p.latencies
  let task_times := collectTaskTimes p.responses
  { service_url := url
    total_requests := num_requests
    successful_requests := latencies.length
    errors := p.errors
    error_rate := if num_requests > 0 then (p.errors : ℚ) / (num_requests : ℚ) else 0
    total_time_seconds := total_time
    throughput_rps := if total_time > 0 then (latencies.length : ℚ) / total_time else 0
    avg_latency_ms := avgField latencies
    p50_latency_ms := p50Field latencies
    p95_latency_ms := p95Field latencies
    p99_latency_ms := p99Field latencies
    max_latency_ms := maxField latencies
    min_latency_ms := minField latencies
    task_statistics := task_times.map fun q => (q.1, taskStat q.2)
    raw_latencies := latencies }

/-! ## Resource monitor (`ResourceMonitor`) -/

/-- Resource usage metrics (dataclass `ResourceMetrics`). -/
structure ResourceMetrics where
  cpu_percent : ℚ
  memory_mb : ℚ
  threads : Nat
deriving DecidableEq

/-- One entry yielded by `psutil.process_iter` during a sampling tick:
either the per-process inspection raises `NoSuchProcess`/`AccessDenied`
(swallowed by the inner `except`), or it yields the prefetched info fields.
`cpu_percent` and `num_threads` may be `None` (modelled as `Option`);
`rss_bytes` is the resident set size in bytes. -/
inductive ProcEntry where
  | err : ProcEntry
  | ok (name : String) (cpu : Option ℚ) (rss_bytes : ℚ) (numThreads : Option Nat) : ProcEntry
deriving DecidableEq

/-- Python substring membership `needle in hay` on lists of characters. -/
def listContainsSub (needle : List Char) : List Char → Bool
  | [] => needle.isEmpty
  | c :: t => needle.isPrefixOf (c :: t) || listContainsSub needle t

/-- Python `needle in hay` on strings. -/
def strContainsSub (hay needle : String) : Bool :=
  listContainsSub needle.data hay.data

/-- The `any(name in proc_name for name in self.process_names)` test of the
monitoring loop. -/
def matchesAny (process_names : List String) (procName : String) : Bool :=
  process_names.any fun n => strContainsSub procName n

/-- Whether a process entry passes the name filter (an entry whose
inspection raises matches nothing, mirroring the `continue`). -/
def entryMatches (process_names : List String) : ProcEntry → Bool
  | .err => false
  | .ok name _ _ _ => matchesAny process_names name

/-- Accumulator of one tick of `ResourceMonitor._monitor_loop`
(lines 59-75). -/
structure TickAcc where
  total_cpu : ℚ
  total_memory : ℚ
  total_threads : Nat
  found_processes : Nat
deriving DecidableEq

/-- One iteration of the `for proc in psutil.process_iter(...)` loop:
entries that raise are skipped, matching entries contribute their cpu
(`or 0.0`), resident memory in MB, and thread count (`or 0`). -/
def tickStep (process_names : List String) (acc : TickAcc) : ProcEntry → TickAcc
  | .err => acc
  | .ok name cpu rss nthreads =>
      if matchesAny process_names name then
        { total_cpu := acc.total_cpu + cpu.getD 0
          total_memory := acc.total_memory + rss / (1024 * 1024)
          total_threads := acc.total_threads + nthreads.getD 0
          found_processes := acc.found_processes + 1 }
      else acc

/-- The whole process-table scan of one tick. -/
def runTick (process_names : List String) (procs : List ProcEntry) : TickAcc :=
  procs.foldl (tickStep process_names) ⟨0, 0, 0, 0⟩

/-- One tick of the monitoring loop acting on the accumulated metrics list
(lines 57-86): a sample is appended only when `found_processes > 0`. -/
def monitorTick (process_names : List String) (procs : List ProcEntry)
    (metrics : List ResourceMetrics) : List ResourceMetrics :=
  let acc := runTick process_names procs
  if acc.found_processes > 0 then
    metrics ++ [⟨acc.total_cpu, acc.total_memory, acc.total_threads⟩]
  else metrics

/-- Input consumed by one iteration of `_monitor_loop` while
`self.monitoring` is still set: either the tick body runs to completion
over a snapshot of the process table, or some exception other than the
per-process ones is raised inside the tick. -/
inductive TickInput where
  | ok (procs : List ProcEntry) : TickInput
  | raise : TickInput
deriving DecidableEq

/-- The `while self.monitoring` loop (lines 57-89): the list of tick inputs
abstracts the iterations that start while the flag is set; the
`except Exception ... break` makes any raising tick terminate the loop,
discarding all later iterations. -/
def monitorLoop (process_names : List String) (metrics : List ResourceMetrics) :
    List TickInput → List ResourceMetrics
  | [] => metrics
  | .raise :: _ => metrics
  | .ok procs :: rest =>
      monitorLoop process_names (monitorTick process_names procs metrics) rest

/-! ## Comparison run (`run_comparison_benchmark`) -/

/-- Relative-improvement ratio pattern of `run_comparison_benchmark`
(lines 358, 362, 366, 393, 394): `python_metric / rust_metric` when the
rust metric is positive, `0` otherwise. -/
def relImprovement (pythonVal rustVal : ℚ) : ℚ :=
  if rustVal > 0 then pythonVal / rustVal else 0

/-- Mean of the sampled cpu percentages (line 385/389). -/
def avgCpu (ms : List ResourceMetrics) : ℚ :=
  pyMean (ms.map ResourceMetrics.cpu_percent)

/-- Mean of the sampled resident memory (line 386/390). -/
def avgMemory (ms : List ResourceMetrics) : ℚ :=
  pyMean (ms.map ResourceMetrics.memory_mb)

/-- Benchmark configuration delivered by the CLI to
`run_comparison_benchmark`. -/
structure BenchmarkConfig where
  topic : String
  num_requests : Nat
  max_workers : Nat
  monitor_resources : Bool
deriving DecidableEq

/-- Environment abstracting everything the outside world decides during
`run_comparison_benchmark`: the two health probes (`False` covers a
non-success status, a connection error or a timeout), the per-attempt
outcomes and wall-clock duration of each service's dispatch, the samples
each `ResourceMonitor` would collect, and whether writing
`benchmark_results.json` succeeds. -/
structure CompEnv where
  rust_healthy : Bool
  python_healthy : Bool
  python_outcomes : List ReqResult
  python_time : ℚ
  rust_outcomes : List ReqResult
  rust_time : ℚ
  python_samples : List ResourceMetrics
  rust_samples : List ResourceMetrics
  write_succeeds : Bool

/-- Observable effects of one call to `run_comparison_benchmark`:
how many requests were dispatched to each service, whether resource
monitors were started, the comparison report printed to the console
(the pair of computed result sets), whether the artifact file was
written, and whether the call raised instead of returning. -/
structure CompTrace where
  python_dispatched : Nat
  rust_dispatched : Nat
  monitors_started : Bool
  printed_report : Option (ServiceResult × ServiceResult)
  artifact_written : Bool
  raised : Bool
deriving DecidableEq

/-- Embedding of `run_comparison_benchmark` (lines 266-447): a failing
health probe on either service returns early with nothing dispatched,
no monitor started and nothing written; otherwise the python service is
benchmarked, then the rust service, the comparison is printed, and the
artifact write either succeeds or raises an unhandled exception after
the report was already printed. -/
def run_comparison_benchmark (rust_url python_url : String)
    (cfg : BenchmarkConfig) (env : CompEnv) : CompTrace :=
  if !env.rust_healthy then ⟨0, 0, false, none, false, false⟩
  else if !env.python_healthy then ⟨0, 0, false, none, false, false⟩
  else
    let python_results := benchmark_service_threaded python_url env.python_outcomes env.python_time
    let rust_results := benchmark_service_threaded rust_url env.rust_outcomes env.rust_time
    { python_dispatched := env.python_outcomes.length
      rust_dispatched := env.rust_outcomes.length
      monitors_started := cfg.monitor_resources
      printed_report := some (rust_results, python_results)
      artifact_written := env.write_succeeds
      raised := !env.write_succeeds }

/-! ## Persisted artifact (lines 418-439) -/

/-- JSON values, enough for the persisted `benchmark_results.json`. -/
inductive Json where
  | num (q : ℚ)
  | str (s : String)
  | bool (b : Bool)
  | arr (items : List Json)
  | obj (fields : List (String × Json))

/-- Top-level key list of a JSON object. -/
def Json.topKeys : Json → List String
  | .obj fields => fields.map Prod.fst
  | _ => []

/-- Field lookup in a JSON object. -/
def Json.lookup (j : Json) (k : String) : Option Json :=
  match j with
  | .obj fields => (fields.find? fun p => p.1 == k).map Prod.snd
  | _ => none

/-- JSON rendering of one resource sample (lines 429, 433). -/
def sampleJson (m : ResourceMetrics) : Json :=
  .obj [("cpu_percent", .num m.cpu_percent), ("memory_mb", .num m.memory_mb),
        ("threads", .num (m.threads : ℚ))]

/-- JSON rendering of one per-task summary (lines 162-166). -/
def taskStatJson (t : TaskStat) : Json :=
  .obj [("avg_ms", .num t.avg_ms), ("p50_ms", .num t.p50_ms), ("p95_ms", .num t.p95_ms)]

/-- JSON rendering of the dictionary returned by
`benchmark_service_threaded` (lines 168-184). -/
def serviceResultJson (r : ServiceResult) : Json :=
  .obj [("service_url", .str r.service_url),
        ("total_requests", .num (r.total_requests : ℚ)),
        ("successful_requests", .num (r.successful_requests : ℚ)),
        ("errors", .num (r.errors : ℚ)),
        ("error_rate", .num r.error_rate),
        ("total_time_seconds", .num r.total_time_seconds),
        ("throughput_rps", .num r.throughput_rps),
        ("avg_latency_ms", .num r.avg_latency_ms),
        ("p50_latency_ms", .num r.p50_latency_ms),
        ("p95_latency_ms", .num r.p95_latency_ms),
        ("p99_latency_ms", .num r.p99_latency_ms),
        ("max_latency_ms", .num r.max_latency_ms),
        ("min_latency_ms", .num r.min_latency_ms),
        ("task_statistics", .obj (r.task_statistics.map fun p => (p.1, taskStatJson p.2))),
        ("raw_latencies", .arr (r.raw_latencies.map Json.num))]

/-- JSON rendering of the `benchmark_config` block (lines 420-425). -/
def configJson (c : BenchmarkConfig) : Json :=
  .obj [("topic", .str c.topic),
        ("num_requests", .num (c.num_requests : ℚ)),
        ("max_workers", .num (c.max_workers : ℚ)),
        ("monitor_resources", .bool c.monitor_resources)]

/-- The `results` dictionary written to `benchmark_results.json`
(lines 418-436), with the `if ... else []` guards on the two
resource-metric lists embedded as written. -/
def resultsArtifact (timestamp : ℚ) (cfg : BenchmarkConfig)
    (rust_results python_results : ServiceResult)
    (rust_resource_metrics python_resource_metrics : List ResourceMetrics) : Json :=
  .obj [("timestamp", .num timestamp),
        ("benchmark_config", configJson cfg),
        ("rust_results", serviceResultJson rust_results),
        ("python_results", serviceResultJson python_results),
        ("rust_resource_metrics",
          if rust_resource_metrics ≠ [] then
            .arr (rust_resource_metrics.map sampleJson)
          else .arr []),
        ("python_resource_metrics",
          if python_resource_metrics ≠ [] then
            .arr (python_resource_metrics.map sampleJson)
          else .arr [])]

/-! ## Helper lemmas -/

/-- Each processed result contributes exactly one success or one error. -/
lemma processResults_counts (rs : List ReqResult) :
    (processResults rs).latencies.length + (processResults rs).errors = rs.length := by
  induction rs with
  | nil => rfl
  | cons r rs ih => cases r <;> simp [processResults] <;> omega

/-- The ascending list `[1, 2, ..., n]` as rationals. -/
def oneTo (n : Nat) : List ℚ := (List.range n).map fun k => ((k + 1 : Nat) : ℚ)

lemma oneTo_length (n : Nat) : (oneTo n).length = n := by simp [oneTo]

lemma oneTo_sorted (n : Nat) : List.Sorted (· ≤ ·) (oneTo n) := by
  refine List.Pairwise.map _ ?_ (List.sorted_lt_range n)
  intro a b hab
  have h : (a : ℚ) < b := by exact_mod_cast hab
  push_cast
  linarith

lemma pySorted_oneTo (n : Nat) : pySorted (oneTo n) = oneTo n :=
  List.Sorted.insertionSort_eq (oneTo_sorted n)

lemma oneTo_getD (n k : Nat) (h : k < n) :
    (oneTo n).getD k 0 = ((k + 1 : Nat) : ℚ) := by
  simp [oneTo, List.getD_eq_getElem?_getD, List.getElem?_map, List.getElem?_range h]

lemma oneTo_getElem? (n k : Nat) (h : k < n) :
    (oneTo n)[k]? = some ((k + 1 : Nat) : ℚ) := by
  simp [oneTo, List.getElem?_map, List.getElem?_range h]

/-- Indexing into the quantile list selects the corresponding cut point. -/
lemma quantilesExc_getD (data : List ℚ) (n k : Nat) (h : k < n - 1) :
    (quantilesExc data n).getD k 0 = cutPoint (pySorted data) data.length n (k + 1) := by
  simp [quantilesExc, List.getD_eq_getElem?_getD, List.getElem?_map, List.getElem?_range h]

/-- Concrete p99 of the 150 latencies 1..150 under the code's
interpolating quantile: 149.49, not 149. -/
lemma p99_oneTo150 : p99Field (oneTo 150) = 14949 / 100 := by
  rw [p99Field, if_pos (by rw [oneTo_length]; norm_num),
    quantilesExc_getD _ _ _ (by norm_num), pySorted_oneTo, oneTo_length]
  rw [cutPoint]
  norm_num
  rw [oneTo_getElem? _ _ (by norm_num), oneTo_getElem? _ _ (by norm_num)]
  norm_num

set_option maxRecDepth 100000 in
lemma p99_oneTo100 : p99Field (oneTo 100) = 100 := by decide

/-- Modelled from the claim's words, not from the code: p99 as the element
at index `ceil(0.99*N)-1` of the ascending-sorted list when `N > 100`,
falling back to the maximum otherwise. -/
def claimP99 (xs : List ℚ) : ℚ :=
  if xs.length > 100 then
    (pySorted xs).getD ((⌈(99 : ℚ) / 100 * (xs.length : ℚ)⌉).toNat - 1) 0
  else listMax xs

lemma claimP99_oneTo150 : claimP99 (oneTo 150) = 149 := by
  rw [claimP99, if_pos (by rw [oneTo_length]; norm_num), pySorted_oneTo, oneTo_length]
  have hceil : (⌈(99 : ℚ) / 100 * ((150 : Nat) : ℚ)⌉ : ℤ) = 149 := by
    rw [show (99 : ℚ) / 100 * ((150 : Nat) : ℚ) = 297 / 2 by norm_num, Int.ceil_eq_iff]
    constructor <;> norm_num
  rw [hceil, show (149 : ℤ).toNat - 1 = 148 from rfl, oneTo_getD _ _ (by norm_num)]
  norm_num

/-- The tick's `found_processes` counter counts exactly the entries passing
the name filter. -/
lemma foldl_tickStep_found (process_names : List String) (procs : List ProcEntry) :
    ∀ acc : TickAcc,
      (procs.foldl (tickStep process_names) acc).found_processes
        = acc.found_processes + procs.countP (entryMatches process_names) := by
  induction procs with
  | nil => intro acc; simp
  | cons p ps ih =>
    intro acc
    cases p with
    | err => simp [tickStep, entryMatches, List.countP_cons, ih]
    | ok name cpu rss nthreads =>
      by_cases hm : matchesAny process_names name
      · simp [tickStep, hm, entryMatches, List.countP_cons, ih]
        omega
      · simp [tickStep, hm, entryMatches, List.countP_cons, ih]

lemma runTick_found (process_names : List String) (procs : List ProcEntry) :
    (runTick process_names procs).found_processes
      = procs.countP (entryMatches process_names) := by
  rw [runTick, foldl_tickStep_found]
  simp

/-- On a positive metric the ratio guard takes the division branch, which
gives 1 when numerator and denominator coincide. -/
lemma relImprovement_self (x : ℚ) (h : 0 < x) : relImprovement x x = 1 := by
  rw [relImprovement, if_pos h]
  exact div_self (ne_of_gt h)

/-! ## Claim theorems -/

/-- C1: for every dispatch of `benchmark_service_threaded` over N > 0
attempts, each attempt contributes exactly one recorded latency or one
counted error, so `successful_requests + errors = total_requests = N`. -/
theorem successes_plus_errors_cover_total (url : String)
    (outcomes : List ReqResult) (total_time : ℚ) (h : 0 < outcomes.length) :
    (benchmark_service_threaded url outcomes total_time).successful_requests
        + (benchmark_service_threaded url outcomes total_time).errors
      = (benchmark_service_threaded url outcomes total_time).total_requests := by
  simp only [benchmark_service_threaded]
  exact processResults_counts outcomes

/-- Witness for C1 at a concrete three-attempt dispatch. -/
theorem successes_plus_errors_cover_total_witness :
    (benchmark_service_threaded "u" [ReqResult.exc, ReqResult.failed, ReqResult.ok 5 []] 1).successful_requests
        + (benchmark_service_threaded "u" [ReqResult.exc, ReqResult.failed, ReqResult.ok 5 []] 1).errors
      = (benchmark_service_threaded "u" [ReqResult.exc, ReqResult.failed, ReqResult.ok 5 []] 1).total_requests :=
  successes_plus_errors_cover_total "u" [ReqResult.exc, ReqResult.failed, ReqResult.ok 5 []] 1
    (by decide)

/-- C2 counterexample: on the 150 successful latencies 1..150 the code's
p99 is the exclusive-method interpolated value 149.49, while the claim's
rank formula `ceil(0.99*150)-1` predicts 149; the two differ. -/
theorem p99_rank_formula_counterexample :
    p99Field (oneTo 150) = 14949 / 100 ∧ claimP99 (oneTo 150) = 149
      ∧ (14949 : ℚ) / 100 ≠ 149 :=
  ⟨p99_oneTo150, claimP99_oneTo150, by norm_num⟩

/-- C2 amended: for `N > 20` the aggregator's p95 is the 19th exclusive
cut point of `statistics.quantiles(·, n=20)` (linear interpolation on the
ascending-sorted list), else `max(values)`; p99 is analogously the 99th
cut point of `n=100` for `N > 100`, else `max(values)`. In particular
p99 of `[1..100]` is 100 and p99 of `[1..150]` is 149.49. -/
theorem percentile_exclusive_method :
    (∀ xs : List ℚ, 100 < xs.length →
        p99Field xs = cutPoint (pySorted xs) xs.length 100 99)
    ∧ (∀ xs : List ℚ, xs ≠ [] → xs.length ≤ 100 → p99Field xs = listMax xs)
    ∧ (∀ xs : List ℚ, 20 < xs.length →
        p95Field xs = cutPoint (pySorted xs) xs.length 20 19)
    ∧ (∀ xs : List ℚ, xs ≠ [] → xs.length ≤ 20 → p95Field xs = listMax xs)
    ∧ p99Field (oneTo 100) = 100
    ∧ p99Field (oneTo 150) = 14949 / 100 := by
  refine ⟨?_, ?_, ?_, ?_, p99_oneTo100, p99_oneTo150⟩
  · intro xs h
    rw [p99Field, if_pos (by omega)]
    exact quantilesExc_getD xs 100 98 (by norm_num)
  · intro xs h1 h2
    rw [p99Field, if_neg (by omega), if_pos h1]
  · intro xs h
    rw [p95Field, if_pos (by omega)]
    exact quantilesExc_getD xs 20 18 (by norm_num)
  · intro xs h1 h2
    rw [p95Field, if_neg (by omega), if_pos h1]

set_option maxRecDepth 100000 in
/-- Witness for C2's amended statement at concrete sample lists. -/
theorem percentile_exclusive_method_witness :
    p99Field (oneTo 150) = cutPoint (pySorted (oneTo 150)) (oneTo 150).length 100 99
    ∧ p99Field (oneTo 3) = listMax (oneTo 3)
    ∧ p95Field (oneTo 25) = cutPoint (pySorted (oneTo 25)) (oneTo 25).length 20 19
    ∧ p95Field (oneTo 3) = listMax (oneTo 3) :=
  ⟨percentile_exclusive_method.1 (oneTo 150) (by decide),
   percentile_exclusive_method.2.1 (oneTo 3) (by decide) (by decide),
   percentile_exclusive_method.2.2.1 (oneTo 25) (by decide),
   percentile_exclusive_method.2.2.2.1 (oneTo 3) (by decide) (by decide)⟩

/-- C3: a dispatch with an empty success set reports 0 for every latency
statistic field, as a defined default rather than an error. -/
theorem empty_success_zero_stats (url : String) (outcomes : List ReqResult)
    (total_time : ℚ) (h : (processResults outcomes).latencies = []) :
    (benchmark_service_threaded url outcomes total_time).avg_latency_ms = 0
    ∧ (benchmark_service_threaded url outcomes total_time).p50_latency_ms = 0
    ∧ (benchmark_service_threaded url outcomes total_time).p95_latency_ms = 0
    ∧ (benchmark_service_threaded url outcomes total_time).p99_latency_ms = 0
    ∧ (benchmark_service_threaded url outcomes total_time).min_latency_ms = 0
    ∧ (benchmark_service_threaded url outcomes total_time).max_latency_ms = 0 := by
  simp [benchmark_service_threaded, h, avgField, p50Field, p95Field, p99Field,
    maxField, minField]

/-- Witness for C3 at a dispatch whose single attempt errored. -/
theorem empty_success_zero_stats_witness :
    (benchmark_service_threaded "u" [ReqResult.exc] 1).avg_latency_ms = 0
    ∧ (benchmark_service_threaded "u" [ReqResult.exc] 1).p50_latency_ms = 0
    ∧ (benchmark_service_threaded "u" [ReqResult.exc] 1).p95_latency_ms = 0
    ∧ (benchmark_service_threaded "u" [ReqResult.exc] 1).p99_latency_ms = 0
    ∧ (benchmark_service_threaded "u" [ReqResult.exc] 1).min_latency_ms = 0
    ∧ (benchmark_service_threaded "u" [ReqResult.exc] 1).max_latency_ms = 0 :=
  empty_success_zero_stats "u" [ReqResult.exc] 1 (by decide)

/-- C4: a failing preflight health probe on either service makes
`run_comparison_benchmark` return before any dispatch: zero requests to
either service, no monitor started, no artifact written. -/
theorem preflight_failure_aborts (rust_url python_url : String)
    (cfg : BenchmarkConfig) (env : CompEnv)
    (h : env.rust_healthy = false ∨ env.python_healthy = false) :
    (run_comparison_benchmark rust_url python_url cfg env).python_dispatched = 0
    ∧ (run_comparison_benchmark rust_url python_url cfg env).rust_dispatched = 0
    ∧ (run_comparison_benchmark rust_url python_url cfg env).monitors_started = false
    ∧ (run_comparison_benchmark rust_url python_url cfg env).printed_report = none
    ∧ (run_comparison_benchmark rust_url python_url cfg env).artifact_written = false := by
  rcases h with h | h <;> simp [run_comparison_benchmark, h]

/-- Witness for C4 with the second service's probe failing. -/
theorem preflight_failure_aborts_witness :
    (run_comparison_benchmark "r" "p" ⟨"t", 1, 1, true⟩
        ⟨true, false, [], 0, [], 0, [], [], true⟩).python_dispatched = 0
    ∧ (run_comparison_benchmark "r" "p" ⟨"t", 1, 1, true⟩
        ⟨true, false, [], 0, [], 0, [], [], true⟩).rust_dispatched = 0
    ∧ (run_comparison_benchmark "r" "p" ⟨"t", 1, 1, true⟩
        ⟨true, false, [], 0, [], 0, [], [], true⟩).monitors_started = false
    ∧ (run_comparison_benchmark "r" "p" ⟨"t", 1, 1, true⟩
        ⟨true, false, [], 0, [], 0, [], [], true⟩).printed_report = none
    ∧ (run_comparison_benchmark "r" "p" ⟨"t", 1, 1, true⟩
        ⟨true, false, [], 0, [], 0, [], [], true⟩).artifact_written = false :=
  preflight_failure_aborts "r" "p" ⟨"t", 1, 1, true⟩
    ⟨true, false, [], 0, [], 0, [], [], true⟩ (Or.inr rfl)

/-- C5: when writing the artifact fails, the failure surfaces to the
caller (the call raises) but the comparison report printed from the
already-computed in-memory results is exactly the one of a successful
write; nothing about it is discarded or recomputed. -/
theorem persistence_failure_keeps_report (rust_url python_url : String)
    (cfg : BenchmarkConfig) (env : CompEnv)
    (h1 : env.rust_healthy = true) (h2 : env.python_healthy = true)
    (h3 : env.write_succeeds = false) :
    (run_comparison_benchmark rust_url python_url cfg env).printed_report
        = some (benchmark_service_threaded rust_url env.rust_outcomes env.rust_time,
                benchmark_service_threaded python_url env.python_outcomes env.python_time)
    ∧ (run_comparison_benchmark rust_url python_url cfg env).raised = true
    ∧ (run_comparison_benchmark rust_url python_url cfg env).artifact_written = false
    ∧ (run_comparison_benchmark rust_url python_url cfg env).printed_report
        = (run_comparison_benchmark rust_url python_url cfg
            { env with write_succeeds := true }).printed_report := by
  simp [run_comparison_benchmark, h1, h2, h3]

/-- Witness for C5 at a concrete failing-write environment. -/
theorem persistence_failure_keeps_report_witness :
    (run_comparison_benchmark "r" "p" ⟨"t", 1, 1, true⟩
        ⟨true, true, [ReqResult.exc], 1, [ReqResult.exc], 1, [], [], false⟩).printed_report
        = some (benchmark_service_threaded "r" [ReqResult.exc] 1,
                benchmark_service_threaded "p" [ReqResult.exc] 1)
    ∧ (run_comparison_benchmark "r" "p" ⟨"t", 1, 1, true⟩
        ⟨true, true, [ReqResult.exc], 1, [ReqResult.exc], 1, [], [], false⟩).raised = true
    ∧ (run_comparison_benchmark "r" "p" ⟨"t", 1, 1, true⟩
        ⟨true, true, [ReqResult.exc], 1, [ReqResult.exc], 1, [], [], false⟩).artifact_written = false
    ∧ (run_comparison_benchmark "r" "p" ⟨"t", 1, 1, true⟩
        ⟨true, true, [ReqResult.exc], 1, [ReqResult.exc], 1, [], [], false⟩).printed_report
        = (run_comparison_benchmark "r" "p" ⟨"t", 1, 1, true⟩
            ⟨true, true, [ReqResult.exc], 1, [ReqResult.exc], 1, [], [], true⟩).printed_report :=
  persistence_failure_keeps_report "r" "p" ⟨"t", 1, 1, true⟩
    ⟨true, true, [ReqResult.exc], 1, [ReqResult.exc], 1, [], [], false⟩ rfl rfl rfl

/-- C6 counterexample: a run with no successes has average latency 0, and
comparing it against itself yields ratio 0, not the claimed 1.0. -/
theorem self_comparison_zero_ratio_counterexample :
    relImprovement (benchmark_service_threaded "u" [ReqResult.exc] 1).avg_latency_ms
        (benchmark_service_threaded "u" [ReqResult.exc] 1).avg_latency_ms = 0
    ∧ (0 : ℚ) ≠ 1 := by
  constructor
  · simp [benchmark_service_threaded, processResults, avgField, relImprovement]
  · norm_num

/-- C6 amended: comparing equal runs yields ratio 1.0 for every metric
whose shared value is positive; a metric equal to 0 yields ratio 0 under
the divide-by-zero guard. -/
theorem self_comparison_unit_ratios (r : ServiceResult) (ms : List ResourceMetrics)
    (h1 : 0 < r.avg_latency_ms) (h2 : 0 < r.p50_latency_ms)
    (h3 : 0 < r.p95_latency_ms) (h4 : 0 < avgCpu ms) (h5 : 0 < avgMemory ms) :
    relImprovement r.avg_latency_ms r.avg_latency_ms = 1
    ∧ relImprovement r.p50_latency_ms r.p50_latency_ms = 1
    ∧ relImprovement r.p95_latency_ms r.p95_latency_ms = 1
    ∧ relImprovement (avgCpu ms) (avgCpu ms) = 1
    ∧ relImprovement (avgMemory ms) (avgMemory ms) = 1
    ∧ ∀ x : ℚ, x = 0 → relImprovement x x = 0 := by
  refine ⟨relImprovement_self _ h1, relImprovement_self _ h2, relImprovement_self _ h3,
    relImprovement_self _ h4, relImprovement_self _ h5, ?_⟩
  intro x hx
  simp [relImprovement, hx]

/-- Witness for C6's amended statement at a concrete all-positive run. -/
theorem self_comparison_unit_ratios_witness :
    relImprovement (ServiceResult.mk "u" 1 1 0 0 1 1 5 5 5 5 5 5 [] [5]).avg_latency_ms
        (ServiceResult.mk "u" 1 1 0 0 1 1 5 5 5 5 5 5 [] [5]).avg_latency_ms = 1
    ∧ relImprovement (ServiceResult.mk "u" 1 1 0 0 1 1 5 5 5 5 5 5 [] [5]).p50_latency_ms
        (ServiceResult.mk "u" 1 1 0 0 1 1 5 5 5 5 5 5 [] [5]).p50_latency_ms = 1
    ∧ relImprovement (ServiceResult.mk "u" 1 1 0 0 1 1 5 5 5 5 5 5 [] [5]).p95_latency_ms
        (ServiceResult.mk "u" 1 1 0 0 1 1 5 5 5 5 5 5 [] [5]).p95_latency_ms = 1
    ∧ relImprovement (avgCpu [ResourceMetrics.mk 1 1 3]) (avgCpu [ResourceMetrics.mk 1 1 3]) = 1
    ∧ relImprovement (avgMemory [ResourceMetrics.mk 1 1 3])
        (avgMemory [ResourceMetrics.mk 1 1 3]) = 1
    ∧ ∀ x : ℚ, x = 0 → relImprovement x x = 0 :=
  self_comparison_unit_ratios (ServiceResult.mk "u" 1 1 0 0 1 1 5 5 5 5 5 5 [] [5])
    [ResourceMetrics.mk 1 1 3] (by decide) (by decide) (by decide)
    (by simp [avgCpu, pyMean]) (by simp [avgMemory, pyMean])

/-- C7: the reported throughput is `successful_requests / total_time`,
and 0 when the wall time is 0. -/
theorem throughput_definition (url : String) (outcomes : List ReqResult) (t : ℚ) :
    (t = 0 → (benchmark_service_threaded url outcomes t).throughput_rps = 0)
    ∧ (0 < t → (benchmark_service_threaded url outcomes t).throughput_rps
        = ((benchmark_service_threaded url outcomes t).successful_requests : ℚ) / t) := by
  constructor
  · intro h
    simp [benchmark_service_threaded, h]
  · intro h
    simp [benchmark_service_threaded, h]

/-- Witness for C7 at wall times 0 and 2. -/
theorem throughput_definition_witness :
    (benchmark_service_threaded "u" [ReqResult.ok 5 []] 0).throughput_rps = 0
    ∧ (benchmark_service_threaded "u" [ReqResult.ok 5 []] 2).throughput_rps
      = ((benchmark_service_threaded "u" [ReqResult.ok 5 []] 2).successful_requests : ℚ) / 2 :=
  ⟨(throughput_definition "u" [ReqResult.ok 5 []] 0).1 rfl,
   (throughput_definition "u" [ReqResult.ok 5 []] 2).2 (by decide)⟩

/-- C8: a sampling tick whose process scan matches no configured name
substring appends no sample at all, and a sample is appended exactly when
at least one process matched. -/
theorem zero_match_tick_appends_nothing (process_names : List String)
    (procs : List ProcEntry) (metrics : List ResourceMetrics) :
    ((∀ p ∈ procs, entryMatches process_names p = false) →
        monitorTick process_names procs metrics = metrics)
    ∧ ((∃ p ∈ procs, entryMatches process_names p = true) →
        monitorTick process_names procs metrics
          = metrics ++ [⟨(runTick process_names procs).total_cpu,
                        (runTick process_names procs).total_memory,
                        (runTick process_names procs).total_threads⟩]) := by
  constructor
  · intro h
    have hz : (runTick process_names procs).found_processes = 0 := by
      rw [runTick_found]
      rw [List.countP_eq_zero]
      intro a ha
      simp [h a ha]
    rw [monitorTick]
    simp [hz]
  · intro h
    have hp : 0 < (runTick process_names procs).found_processes := by
      rw [runTick_found]
      rw [List.countP_pos_iff]
      obtain ⟨p, hp, hm⟩ := h
      exact ⟨p, hp, hm⟩
    rw [monitorTick]
    simp [hp]

/-- Witness for C8: a tick over a non-matching process table appends no
sample; one over a matching table appends exactly one. -/
theorem zero_match_tick_appends_nothing_witness :
    monitorTick ["python"] [ProcEntry.ok "bash" none 0 none, ProcEntry.err] [] = []
    ∧ monitorTick ["python"] [ProcEntry.ok "python3" (some 1) 0 (some 2)] []
      = [] ++ [⟨(runTick ["python"] [ProcEntry.ok "python3" (some 1) 0 (some 2)]).total_cpu,
               (runTick ["python"] [ProcEntry.ok "python3" (some 1) 0 (some 2)]).total_memory,
               (runTick ["python"] [ProcEntry.ok "python3" (some 1) 0 (some 2)]).total_threads⟩] :=
  ⟨(zero_match_tick_appends_nothing ["python"]
      [ProcEntry.ok "bash" none 0 none, ProcEntry.err] []).1 (by decide),
   (zero_match_tick_appends_nothing ["python"]
      [ProcEntry.ok "python3" (some 1) 0 (some 2)] []).2
      ⟨ProcEntry.ok "python3" (some 1) 0 (some 2), by decide, by decide⟩⟩

/-- C10: an exception raised inside a sampling tick (other than the
per-process ones) breaks the monitoring loop: every tick after it runs no
code and appends no sample, whatever the monitoring flag says. -/
theorem monitor_exception_stops_loop (process_names : List String)
    (pre post : List TickInput) (metrics : List ResourceMetrics) :
    monitorLoop process_names metrics (pre ++ TickInput.raise :: post)
      = monitorLoop process_names metrics pre := by
  induction pre generalizing metrics with
  | nil => rfl
  | cons ti rest ih =>
    cases ti with
    | raise => rfl
    | ok procs => simp [monitorLoop, ih]

/-- C9 counterexample: the persisted artifact's top-level keys do not
include `config`; the configuration block is keyed `benchmark_config`. -/
theorem artifact_config_key_counterexample :
    (resultsArtifact 0 ⟨"t", 1, 1, true⟩ (benchmark_service_threaded "u" [] 0)
        (benchmark_service_threaded "u" [] 0) [] []).topKeys
      = ["timestamp", "benchmark_config", "rust_results", "python_results",
         "rust_resource_metrics", "python_resource_metrics"]
    ∧ "config" ∉ (resultsArtifact 0 ⟨"t", 1, 1, true⟩ (benchmark_service_threaded "u" [] 0)
        (benchmark_service_threaded "u" [] 0) [] []).topKeys := by
  constructor
  · rfl
  · decide

/-- C9 amended: the artifact is a JSON object with top-level fields
`timestamp`, `benchmark_config` (topic, num_requests, max_workers,
monitor_resources), `rust_results` and `python_results` (each the full
result dictionary including the raw latency list), and
`rust_resource_metrics`/`python_resource_metrics`, whose samples carry
`cpu_percent`, `memory_mb` and `threads`. -/
theorem artifact_structure (ts : ℚ) (cfg : BenchmarkConfig)
    (rust python : ServiceResult) (rm pm : List ResourceMetrics) :
    (resultsArtifact ts cfg rust python rm pm).topKeys
      = ["timestamp", "benchmark_config", "rust_results", "python_results",
         "rust_resource_metrics", "python_resource_metrics"]
    ∧ (resultsArtifact ts cfg rust python rm pm).lookup "benchmark_config"
        = some (configJson cfg)
    ∧ (configJson cfg).topKeys
        = ["topic", "num_requests", "max_workers", "monitor_resources"]
    ∧ (resultsArtifact ts cfg rust python rm pm).lookup "rust_results"
        = some (serviceResultJson rust)
    ∧ (resultsArtifact ts cfg rust python rm pm).lookup "python_results"
        = some (serviceResultJson python)
    ∧ (serviceResultJson rust).lookup "raw_latencies"
        = some (.arr (rust.raw_latencies.map Json.num))
    ∧ (resultsArtifact ts cfg rust python rm pm).lookup "rust_resource_metrics"
        = some (.arr (rm.map sampleJson))
    ∧ (resultsArtifact ts cfg rust python rm pm).lookup "python_resource_metrics"
        = some (.arr (pm.map sampleJson))
    ∧ ∀ m : ResourceMetrics, (sampleJson m).topKeys
        = ["cpu_percent", "memory_mb", "threads"] := by
  refine ⟨rfl, rfl, rfl, rfl, rfl, rfl, ?_, ?_, fun m => rfl⟩
  · cases rm with
    | nil => rfl
    | cons m ms => rfl
  · cases pm with
    | nil => rfl
    | cons m ms => rfl

end Benchmark
